import Mathlib

/-!
Shallow embedding of `src/MongoDBTransaction.ts` (repository
codewisedev/mongodb-transaction): a thin wrapper that runs an ordered list of
create/update/delete operations inside one MongoDB client-session transaction.

Modelling conventions:
* JavaScript objects (`Record<string, unknown>`) become association lists of
  string keys to string values (`Doc`); a lookup reads the first occurrence of
  a key, matching JavaScript's unique-key objects.
* The MongoDB backend (an external dependency, spec §6) is modelled as a store
  of collections keyed by (database name, collection name).  Each session-scoped
  write call is staged against the store and becomes visible when
  `commitTransaction` runs; `insertOne` appends one document, `updateOne`
  applies `$set` merge semantics to the first matching document, `deleteOne`
  removes the first matching document.  Whether the backend rejects an
  individual write call is an oracle parameter `fails : WriteCall → Bool`.
* Control flow of `createTransaction` (lines 69–93 of the source): the `for`
  loop dispatches on `operation.operationType` and calls `this.create`,
  `this.update` or `this.delete` WITHOUT `await`; those helpers in turn call
  `insertOne` / `updateOne` / `deleteOne` without `await`.  Consequently a
  rejected write promise is never observed inside the `try` block: the loop
  always completes, `session.commitTransaction()` is always reached, and the
  `catch` branch (abort + rethrow) is unreachable for write-item failures,
  which surface only as unhandled promise rejections.  The model records those
  rejections in the `unhandled` field of the result.
-/

/-- A JavaScript object: association list from field names to (string) values.
Keys are unique in objects produced by literals and spreads; `lookupF` reads
the first occurrence. -/
abbrev Doc := List (String × String)

/-- The backend state: collections of documents keyed by
(database name, collection name). -/
abbrev Store := List ((String × String) × List Doc)

/-- Field lookup in a document (first occurrence of the key). -/
def lookupF : Doc → String → Option String
  | [], _ => none
  | (k, v) :: rest, key => if k = key then some v else lookupF rest key

/-- MongoDB filter matching: a document matches a selector iff every field of
the selector is present in the document with the same value. -/
def matchesSel (sel : Doc) (d : Doc) : Bool :=
  sel.all (fun kv => decide (lookupF d kv.1 = some kv.2))

/-- Set one field of a document: replace the first occurrence of the key, or
append the binding if the key is absent. -/
def setField : Doc → String → String → Doc
  | [], k, v => [(k, v)]
  | (k', v') :: rest, k, v =>
      if k' = k then (k, v) :: rest else (k', v') :: setField rest k v

/-- MongoDB `$set` semantics: merge the payload into the document field by
field, keeping the document's other fields (a partial update, not a
replacement). -/
def mergeSet : Doc → Doc → Doc
  | d, [] => d
  | d, (k, v) :: rest => mergeSet (setField d k v) rest

/-- MongoDB `updateOne` on a collection: apply the `$set` payload to the first
document matching the selector; all other documents are untouched. -/
def updateFirst (sel pay : Doc) : List Doc → List Doc
  | [] => []
  | d :: ds => if matchesSel sel d then mergeSet d pay :: ds
               else d :: updateFirst sel pay ds

/-- MongoDB `deleteOne` on a collection: remove the first document matching
the selector; all other documents are untouched. -/
def deleteFirst (sel : Doc) : List Doc → List Doc
  | [] => []
  | d :: ds => if matchesSel sel d then ds else d :: deleteFirst sel ds

/-- Read a collection of the store (a collection never written is empty). -/
def getColl : Store → String → String → List Doc
  | [], _, _ => []
  | (k, docs) :: rest, dbName, coll =>
      if k.1 = dbName ∧ k.2 = coll then docs else getColl rest dbName coll

/-- Write a collection of the store. -/
def setColl : Store → String → String → List Doc → Store
  | [], dbName, coll, docs => [((dbName, coll), docs)]
  | (k, ds) :: rest, dbName, coll, docs =>
      if k.1 = dbName ∧ k.2 = coll then (k, docs) :: rest
      else (k, ds) :: setColl rest dbName coll docs

/-- The TypeScript union `CollectionData`: at runtime both `index` and
`insert` are optional fields of the object (the union only constrains the
static type, and even statically each variant leaves one field optional). -/
structure CollectionData where
  index : Option Doc
  insert : Option Doc
deriving DecidableEq, Repr

/-- The spread `{...x}` of a possibly-missing record field: spreading
`undefined` yields the empty object. -/
def spread : Option Doc → Doc
  | none => []
  | some d => d

/-- `Collector` from the source: a collection name plus its data. -/
structure Collector where
  collectionName : String
  data : CollectionData
deriving DecidableEq, Repr

/-- `OperationType` is a string enum in the source; at runtime an operation's
tag is just a string, so values outside the three enum members can reach the
`switch`. -/
abbrev OperationType := String

def OperationType.Create : OperationType := "CREATE"

def OperationType.Update : OperationType := "UPDATE"

def OperationType.Delete : OperationType := "DELETE"

/-- `Operation` from the source. -/
structure Operation where
  operationType : OperationType
  collectors : List Collector
deriving DecidableEq, Repr

/-- One session-scoped backend write call, as issued by the source:
`insertOne({...insert}, {session})`,
`updateOne({...index}, {$set: {...insert}}, {session})`,
`deleteOne({...index}, {session})`, against `db(dbName).collection(coll)`. -/
inductive WriteCall where
  | insertOne (dbName coll : String) (doc : Doc)
  | updateOne (dbName coll : String) (sel : Doc) (setPayload : Doc)
  | deleteOne (dbName coll : String) (sel : Doc)
deriving DecidableEq, Repr

/-- Effect of one accepted write call on the store. -/
def applyCall : WriteCall → Store → Store
  | WriteCall.insertOne dbName coll doc, s =>
      setColl s dbName coll (getColl s dbName coll ++ [doc])
  | WriteCall.updateOne dbName coll sel pay, s =>
      setColl s dbName coll (updateFirst sel pay (getColl s dbName coll))
  | WriteCall.deleteOne dbName coll sel, s =>
      setColl s dbName coll (deleteFirst sel (getColl s dbName coll))

/-- Run a sequence of write calls against the store in dispatch order: a call
the backend rejects (per the oracle) stages nothing, the others apply. -/
def runCalls (fails : WriteCall → Bool) : List WriteCall → Store → Store
  | [], s => s
  | c :: cs, s => runCalls fails cs (if fails c then s else applyCall c s)

/-- `Transaction.create` (source lines 102–114): for each collector, issue
`insertOne({...collector.data.insert}, {session})` on its collection. -/
def Transaction.create (dbName : String) (collectors : List Collector) : List WriteCall :=
  collectors.map (fun c => WriteCall.insertOne dbName c.collectionName (spread c.data.insert))

/-- `Transaction.update` (source lines 124–137): for each collector, issue
`updateOne({...index}, {$set: {...insert}}, {session})` on its collection. -/
def Transaction.update (dbName : String) (collectors : List Collector) : List WriteCall :=
  collectors.map (fun c =>
    WriteCall.updateOne dbName c.collectionName (spread c.data.index) (spread c.data.insert))

/-- `Transaction.delete` (source lines 145–157): for each collector, issue
`deleteOne({...index}, {session})` on its collection; `data.insert` is not
read. -/
def Transaction.delete (dbName : String) (collectors : List Collector) : List WriteCall :=
  collectors.map (fun c => WriteCall.deleteOne dbName c.collectionName (spread c.data.index))

/-- The `switch (operation.operationType)` of `createTransaction` (source
lines 76–86): dispatch to the matching handler; the `switch` has no default
branch, so any other tag issues no calls. -/
def dispatchOp (dbName : String) (op : Operation) : List WriteCall :=
  if op.operationType = OperationType.Create then Transaction.create dbName op.collectors
  else if op.operationType = OperationType.Update then Transaction.update dbName op.collectors
  else if op.operationType = OperationType.Delete then Transaction.delete dbName op.collectors
  else []

/-- The `for await (let operation of operations)` loop (source lines 75–87):
the backend write calls issued, in dispatch order. -/
def traceOfOps (dbName : String) : List Operation → List WriteCall
  | [] => []
  | op :: ops => dispatchOp dbName op ++ traceOfOps dbName ops

/-- Observable outcome of one `createTransaction` call: the committed store,
the backend write calls issued in order, the write calls whose promises were
rejected (and, being un-awaited, never observed), whether
`commitTransaction` / `abortTransaction` ran, and whether the returned promise
resolved (`ok = true`) or rejected. -/
structure TxResult where
  store : Store
  trace : List WriteCall
  unhandled : List WriteCall
  committed : Bool
  aborted : Bool
  ok : Bool
deriving DecidableEq, Repr

/-- `Transaction.createTransaction` (source lines 69–93).  The loop issues
every write call without awaiting it, so a rejected write never raises inside
the `try` block: the loop completes, `commitTransaction` always runs (staged
accepted writes become visible), the `catch` branch never runs for write-item
failures, and the call resolves.  Rejected write calls are recorded as
unhandled promise rejections. -/
def Transaction.createTransaction (fails : WriteCall → Bool) (dbName : String)
    (operations : List Operation) (store : Store) : TxResult :=
  { store := runCalls fails (traceOfOps dbName operations) store
    trace := traceOfOps dbName operations
    unhandled := (traceOfOps dbName operations).filter fails
    committed := true
    aborted := false
    ok := true }

/-- A `Transaction` instance: it stores the constructor argument `mongodbUri`
and the client built from it (`new MongoClient(this.mongodbUri)`, source lines
47–49); the client is represented by the URI it was constructed with. -/
structure TransactionInst where
  mongodbUri : String
  clientUri : String
deriving DecidableEq, Repr

/-- The private constructor of `Transaction`. -/
def mkTransaction (mongodbUri : String) : TransactionInst :=
  { mongodbUri := mongodbUri, clientUri := mongodbUri }

/-- `Transaction.getInstance` (source lines 56–61) acting on the static field
`Transaction.instance` (`none` = unset): if unset, construct an instance from
the given URI and cache it; otherwise return the cached instance unchanged,
ignoring the argument.  Returns (returned instance, new static field). -/
def Transaction.getInstance :
    Option TransactionInst → String → TransactionInst × Option TransactionInst
  | none, uri => (mkTransaction uri, some (mkTransaction uri))
  | some t, _ => (t, some t)

/-- A sequence of `getInstance` calls, returning the final static field. -/
def runGetInstances : Option TransactionInst → List String → Option TransactionInst
  | s, [] => s
  | s, u :: us => runGetInstances (Transaction.getInstance s u).2 us

/-! Concrete inputs used by the closed theorems below. -/

/-- An operation inserting one document {name: Ann} into collection User
(spec §8 round-trip scenario). -/
def opCreateUser : Operation :=
  { operationType := OperationType.Create
    collectors := [{ collectionName := "User"
                     data := { index := none, insert := some [("name", "Ann")] } }] }

/-- An operation deleting the document {id: missing} from collection Orphan
(spec §8 abort scenario). -/
def opDeleteOrphan : Operation :=
  { operationType := OperationType.Delete
    collectors := [{ collectionName := "Orphan"
                     data := { index := some [("id", "missing")], insert := none } }] }

/-- An UPDATE operation whose single write item is missing its selector
(`index` absent), violating the structural invariant of the data model. -/
def opUpdateNoSelector : Operation :=
  { operationType := OperationType.Update
    collectors := [{ collectionName := "User"
                     data := { index := none, insert := some [("status", "done")] } }] }

/-- A CREATE operation whose single write item is missing its `insert`
payload. -/
def opCreateEmpty : Operation :=
  { operationType := OperationType.Create
    collectors := [{ collectionName := "Audit"
                     data := { index := some [], insert := none } }] }

/-- Backend oracle rejecting every deleteOne call and accepting the rest. -/
def failsDeleteOrphan : WriteCall → Bool
  | WriteCall.deleteOne _ _ _ => true
  | _ => false

/-- Backend oracle rejecting every insertOne call and accepting the rest. -/
def failsInsertUser : WriteCall → Bool
  | WriteCall.insertOne _ _ _ => true
  | _ => false

/-- Backend oracle accepting every write call. -/
def noFail : WriteCall → Bool := fun _ => false

/-! Helper lemmas. -/

theorem traceOfOps_append (dbName : String) (l1 l2 : List Operation) :
    traceOfOps dbName (l1 ++ l2) = traceOfOps dbName l1 ++ traceOfOps dbName l2 := by
  induction l1 with
  | nil => rfl
  | cons o os ih => simp [traceOfOps, ih]

theorem traceOfOps_eq_join (dbName : String) (ops : List Operation) :
    traceOfOps dbName ops = (ops.map (dispatchOp dbName)).flatten := by
  induction ops with
  | nil => rfl
  | cons op ops ih => simp [traceOfOps, ih]

theorem mem_traceOfOps_of_mem_dispatch {dbName : String} {op : Operation}
    {ops : List Operation} (hop : op ∈ ops) {c : WriteCall}
    (hc : c ∈ dispatchOp dbName op) : c ∈ traceOfOps dbName ops := by
  induction ops with
  | nil => exact absurd hop (List.not_mem_nil op)
  | cons o os ih =>
    rcases List.mem_cons.mp hop with h | h
    · subst h; exact List.mem_append_left _ hc
    · exact List.mem_append_right _ (ih h)

theorem runGetInstances_some (t : TransactionInst) (us : List String) :
    runGetInstances (some t) us = some t := by
  induction us with
  | nil => rfl
  | cons u us ih => exact ih

/-! Claim theorems. -/

/-- C1 (refuting the claimed atomicity on the code as written): with the
backend rejecting the deleteOne call, `createTransaction "shop"
[opCreateUser, opDeleteOrphan]` still resolves successfully, never aborts,
commits, and leaves the insert of {name: Ann} visible in shop.User — the
rejected write surfaces only as an unhandled promise rejection, because no
write promise is awaited in the source. -/
theorem failed_write_leaves_sibling_write_committed :
    (Transaction.createTransaction failsDeleteOrphan "shop" [opCreateUser, opDeleteOrphan] []).ok = true
  ∧ (Transaction.createTransaction failsDeleteOrphan "shop" [opCreateUser, opDeleteOrphan] []).aborted = false
  ∧ (Transaction.createTransaction failsDeleteOrphan "shop" [opCreateUser, opDeleteOrphan] []).committed = true
  ∧ (Transaction.createTransaction failsDeleteOrphan "shop" [opCreateUser, opDeleteOrphan] []).unhandled
      = [WriteCall.deleteOne "shop" "Orphan" [("id", "missing")]]
  ∧ getColl (Transaction.createTransaction failsDeleteOrphan "shop" [opCreateUser, opDeleteOrphan] []).store
      "shop" "User" = [[("name", "Ann")]] := by
  decide

/-- C2 (refuting the claimed abort-and-rethrow on the code as written): with
the backend rejecting the insertOne call, `createTransaction` resolves
successfully, `abortTransaction` is never invoked, and the failure is not
propagated to the caller — it remains an unhandled rejection of the
un-awaited write promise. -/
theorem write_failure_never_aborts :
    (Transaction.createTransaction failsInsertUser "shop" [opCreateUser] []).ok = true
  ∧ (Transaction.createTransaction failsInsertUser "shop" [opCreateUser] []).aborted = false
  ∧ (Transaction.createTransaction failsInsertUser "shop" [opCreateUser] []).committed = true
  ∧ (Transaction.createTransaction failsInsertUser "shop" [opCreateUser] []).unhandled
      = [WriteCall.insertOne "shop" "User" [("name", "Ann")]] := by
  decide

/-- C3 counterexample: for an Update write item missing its selector (a
structural-invariant violation), `createTransaction` issues a backend
updateOne call with the empty selector for that very item, surfaces no
validation error, and does not abort. -/
theorem invalid_update_item_issues_backend_call :
    (Transaction.createTransaction noFail "shop" [opUpdateNoSelector] []).trace
      = [WriteCall.updateOne "shop" "User" [] [("status", "done")]]
  ∧ (Transaction.createTransaction noFail "shop" [opUpdateNoSelector] []).ok = true
  ∧ (Transaction.createTransaction noFail "shop" [opUpdateNoSelector] []).aborted = false := by
  decide

/-- C6: the backend write calls issued by one `createTransaction` invocation
are exactly the concatenation, in list order, of the per-operation write
items, and the staged state is their strictly sequential left-to-right
application. -/
theorem createTransaction_dispatch_in_list_order (fails : WriteCall → Bool)
    (dbName : String) (ops : List Operation) (store : Store) :
    (Transaction.createTransaction fails dbName ops store).trace
      = (ops.map (dispatchOp dbName)).flatten
  ∧ (Transaction.createTransaction fails dbName ops store).store
      = runCalls fails ((ops.map (dispatchOp dbName)).flatten) store := by
  refine ⟨traceOfOps_eq_join dbName ops, ?_⟩
  show runCalls fails (traceOfOps dbName ops) store = _
  rw [traceOfOps_eq_join]

/-- C7: an empty operations list is a no-op transaction: no backend write
call is issued, nothing is rejected, the store is unchanged, the transaction
commits and the call resolves successfully. -/
theorem createTransaction_empty_noop (fails : WriteCall → Bool) (dbName : String)
    (store : Store) :
    Transaction.createTransaction fails dbName [] store
      = { store := store, trace := [], unhandled := [], committed := true
          aborted := false, ok := true } :=
  rfl

/-- C8: once `getInstance u1` has created the singleton, every later
`getInstance u2` (after any interleaving of further calls) returns that same
instance, still configured with u1 in both its stored URI and its client, and
leaves the static field unchanged — u2 has no effect. -/
theorem getInstance_ignores_later_uris (u1 u2 : String) (us : List String) :
    (Transaction.getInstance (runGetInstances (Transaction.getInstance none u1).2 us) u2).1
      = mkTransaction u1
  ∧ (Transaction.getInstance (runGetInstances (Transaction.getInstance none u1).2 us) u2).2
      = runGetInstances (Transaction.getInstance none u1).2 us
  ∧ (mkTransaction u1).mongodbUri = u1 ∧ (mkTransaction u1).clientUri = u1 := by
  have h : (Transaction.getInstance none u1).2 = some (mkTransaction u1) := rfl
  rw [h, runGetInstances_some]
  exact ⟨rfl, rfl, rfl, rfl⟩

/-- C3 (amended): `createTransaction` performs no structural validation of
write items: the call never aborts and always resolves regardless of the
backend oracle, and for an Update write item missing its selector the code
still issues a backend updateOne call for that item, with the missing field
spread to the empty record. -/
theorem createTransaction_no_validation (fails : WriteCall → Bool) (dbName : String)
    (ops : List Operation) (store : Store) (op : Operation) (c : Collector)
    (hop : op ∈ ops) (ht : op.operationType = OperationType.Update)
    (hc : c ∈ op.collectors) (hidx : c.data.index = none) :
    (Transaction.createTransaction fails dbName ops store).aborted = false
  ∧ (Transaction.createTransaction fails dbName ops store).ok = true
  ∧ WriteCall.updateOne dbName c.collectionName [] (spread c.data.insert)
      ∈ (Transaction.createTransaction fails dbName ops store).trace := by
  refine ⟨rfl, rfl, ?_⟩
  show _ ∈ traceOfOps dbName ops
  apply mem_traceOfOps_of_mem_dispatch hop
  simp only [dispatchOp, ht]
  rw [if_pos trivial]
  exact List.mem_map.mpr ⟨c, hc, by rw [hidx]; rfl⟩

/-- Witness for the amended C3 at a concrete invalid item. -/
theorem createTransaction_no_validation_witness :
    (Transaction.createTransaction noFail "shop" [opUpdateNoSelector] []).aborted = false
  ∧ (Transaction.createTransaction noFail "shop" [opUpdateNoSelector] []).ok = true
  ∧ WriteCall.updateOne "shop" "User" [] (spread (some [("status", "done")]))
      ∈ (Transaction.createTransaction noFail "shop" [opUpdateNoSelector] []).trace :=
  createTransaction_no_validation noFail "shop" [opUpdateNoSelector] [] opUpdateNoSelector
    { collectionName := "User", data := { index := none, insert := some [("status", "done")] } }
    (by decide) (by decide) (by decide) (by decide)

theorem updateFirst_no_match (sel pay : Doc) (docs : List Doc)
    (h : ∀ d ∈ docs, matchesSel sel d = false) : updateFirst sel pay docs = docs := by
  induction docs with
  | nil => rfl
  | cons d ds ih =>
    simp [updateFirst, h d (List.mem_cons_self d ds),
      ih (fun d' hd' => h d' (List.mem_cons_of_mem d hd'))]

theorem updateFirst_first_match (sel pay : Doc) (l1 : List Doc) (d : Doc) (l2 : List Doc)
    (h1 : ∀ d' ∈ l1, matchesSel sel d' = false) (hd : matchesSel sel d = true) :
    updateFirst sel pay (l1 ++ d :: l2) = l1 ++ mergeSet d pay :: l2 := by
  induction l1 with
  | nil => simp [updateFirst, hd]
  | cons a l ih =>
    simp [updateFirst, h1 a (List.mem_cons_self a l),
      ih (fun d' hd' => h1 d' (List.mem_cons_of_mem a hd'))]

theorem updateFirst_length (sel pay : Doc) (docs : List Doc) :
    (updateFirst sel pay docs).length = docs.length := by
  induction docs with
  | nil => rfl
  | cons d ds ih => cases hm : matchesSel sel d <;> simp [updateFirst, hm, ih]

theorem deleteFirst_no_match (sel : Doc) (docs : List Doc)
    (h : ∀ d ∈ docs, matchesSel sel d = false) : deleteFirst sel docs = docs := by
  induction docs with
  | nil => rfl
  | cons d ds ih =>
    simp [deleteFirst, h d (List.mem_cons_self d ds),
      ih (fun d' hd' => h d' (List.mem_cons_of_mem d hd'))]

theorem deleteFirst_first_match (sel : Doc) (l1 : List Doc) (d : Doc) (l2 : List Doc)
    (h1 : ∀ d' ∈ l1, matchesSel sel d' = false) (hd : matchesSel sel d = true) :
    deleteFirst sel (l1 ++ d :: l2) = l1 ++ l2 := by
  induction l1 with
  | nil => simp [deleteFirst, hd]
  | cons a l ih =>
    simp [deleteFirst, h1 a (List.mem_cons_self a l),
      ih (fun d' hd' => h1 d' (List.mem_cons_of_mem a hd'))]

theorem deleteFirst_length_le (sel : Doc) (docs : List Doc) :
    (deleteFirst sel docs).length ≤ docs.length := by
  induction docs with
  | nil => exact Nat.le_refl 0
  | cons d ds ih =>
    cases hm : matchesSel sel d
    all_goals simp [deleteFirst, hm]
    all_goals omega

theorem deleteFirst_length_ge (sel : Doc) (docs : List Doc) :
    docs.length ≤ (deleteFirst sel docs).length + 1 := by
  induction docs with
  | nil => exact Nat.zero_le 1
  | cons d ds ih =>
    cases hm : matchesSel sel d
    all_goals simp [deleteFirst, hm]
    all_goals omega

theorem lookupF_setField_self (d : Doc) (k v : String) :
    lookupF (setField d k v) k = some v := by
  induction d with
  | nil => simp [setField, lookupF]
  | cons kv rest ih =>
    obtain ⟨k', v'⟩ := kv
    by_cases h : k' = k
    · simp [setField, h, lookupF]
    · simp [setField, h, lookupF, ih]

theorem lookupF_setField_ne (d : Doc) (k v k' : String) (h : k' ≠ k) :
    lookupF (setField d k v) k' = lookupF d k' := by
  induction d with
  | nil => simp [setField, lookupF, Ne.symm h]
  | cons kv rest ih =>
    obtain ⟨a, b⟩ := kv
    by_cases hak : a = k
    · simp [setField, hak, lookupF, Ne.symm h]
    · by_cases hak' : a = k' <;> simp [setField, hak, lookupF, hak', ih, h]

theorem lookupF_eq_none_of_not_mem (d : Doc) (k : String)
    (h : k ∉ d.map Prod.fst) : lookupF d k = none := by
  induction d with
  | nil => rfl
  | cons kv rest ih =>
    obtain ⟨k1, v1⟩ := kv
    simp only [List.map_cons, List.mem_cons] at h
    push_neg at h
    simp [lookupF, Ne.symm h.1, ih h.2]

theorem lookupF_mergeSet_none (pay : Doc) :
    ∀ (d : Doc) (k : String), lookupF pay k = none →
      lookupF (mergeSet d pay) k = lookupF d k := by
  induction pay with
  | nil => intro d k _; rfl
  | cons kv rest ih =>
    obtain ⟨k1, v1⟩ := kv
    intro d k h
    simp only [lookupF] at h
    by_cases e : k1 = k
    · rw [if_pos e] at h; exact absurd h (by simp)
    · rw [if_neg e] at h
      show lookupF (mergeSet (setField d k1 v1) rest) k = lookupF d k
      rw [ih (setField d k1 v1) k h, lookupF_setField_ne d k1 v1 k (Ne.symm e)]

theorem lookupF_mergeSet_some (pay : Doc) :
    ∀ (d : Doc) (k v : String), (pay.map Prod.fst).Nodup → lookupF pay k = some v →
      lookupF (mergeSet d pay) k = some v := by
  induction pay with
  | nil => intro d k v _ h; simp [lookupF] at h
  | cons kv rest ih =>
    obtain ⟨k1, v1⟩ := kv
    intro d k v hnd h
    rw [List.map_cons, List.nodup_cons] at hnd
    simp only [lookupF] at h
    by_cases e : k1 = k
    · rw [if_pos e] at h
      have hv : v1 = v := Option.some.inj h
      have hrest : lookupF rest k = none :=
        lookupF_eq_none_of_not_mem rest k (by rw [← e]; exact hnd.1)
      show lookupF (mergeSet (setField d k1 v1) rest) k = some v
      rw [lookupF_mergeSet_none rest (setField d k1 v1) k hrest, ← e,
        lookupF_setField_self, hv]
    · rw [if_neg e] at h
      exact ih (setField d k1 v1) k v hnd.2 h

/-- C4: every Update operation dispatches, per write item, a session-scoped
updateOne call on the named collection carrying the item's selector and a
`$set` of its payload; the backend semantics of that call touch at most one
document — the first one matching the selector — and apply the payload as a
merge (fields absent from the payload are retained, fields present are set),
not as a document replacement. -/
theorem update_uses_set_merge_first_match (dbName : String) (op : Operation)
    (hop : op.operationType = OperationType.Update) :
    dispatchOp dbName op = op.collectors.map (fun c =>
        WriteCall.updateOne dbName c.collectionName (spread c.data.index) (spread c.data.insert))
  ∧ (∀ (s : Store) (coll : String) (sel pay : Doc),
        applyCall (WriteCall.updateOne dbName coll sel pay) s
          = setColl s dbName coll (updateFirst sel pay (getColl s dbName coll)))
  ∧ (∀ (sel pay : Doc) (l1 l2 : List Doc) (d : Doc),
        (∀ d' ∈ l1, matchesSel sel d' = false) → matchesSel sel d = true →
          updateFirst sel pay (l1 ++ d :: l2) = l1 ++ mergeSet d pay :: l2)
  ∧ (∀ (sel pay : Doc) (docs : List Doc),
        (∀ d' ∈ docs, matchesSel sel d' = false) → updateFirst sel pay docs = docs)
  ∧ (∀ (sel pay : Doc) (docs : List Doc), (updateFirst sel pay docs).length = docs.length)
  ∧ (∀ (d pay : Doc) (k : String), (pay.map Prod.fst).Nodup →
        (lookupF pay k = none → lookupF (mergeSet d pay) k = lookupF d k)
      ∧ ∀ v, lookupF pay k = some v → lookupF (mergeSet d pay) k = some v) := by
  refine ⟨?_, fun s coll sel pay => rfl,
    fun sel pay l1 l2 d h1 hd => updateFirst_first_match sel pay l1 d l2 h1 hd,
    fun sel pay docs h => updateFirst_no_match sel pay docs h,
    fun sel pay docs => updateFirst_length sel pay docs,
    fun d pay k hnd =>
      ⟨lookupF_mergeSet_none pay d k, fun v h => lookupF_mergeSet_some pay d k v hnd h⟩⟩
  simp only [dispatchOp, hop]
  rw [if_pos trivial]
  rfl

/-- Witness for C4 at a concrete Update operation. -/
theorem update_uses_set_merge_first_match_witness :
    dispatchOp "shop" opUpdateNoSelector = opUpdateNoSelector.collectors.map (fun c =>
        WriteCall.updateOne "shop" c.collectionName (spread c.data.index) (spread c.data.insert))
  ∧ (∀ (s : Store) (coll : String) (sel pay : Doc),
        applyCall (WriteCall.updateOne "shop" coll sel pay) s
          = setColl s "shop" coll (updateFirst sel pay (getColl s "shop" coll)))
  ∧ (∀ (sel pay : Doc) (l1 l2 : List Doc) (d : Doc),
        (∀ d' ∈ l1, matchesSel sel d' = false) → matchesSel sel d = true →
          updateFirst sel pay (l1 ++ d :: l2) = l1 ++ mergeSet d pay :: l2)
  ∧ (∀ (sel pay : Doc) (docs : List Doc),
        (∀ d' ∈ docs, matchesSel sel d' = false) → updateFirst sel pay docs = docs)
  ∧ (∀ (sel pay : Doc) (docs : List Doc), (updateFirst sel pay docs).length = docs.length)
  ∧ (∀ (d pay : Doc) (k : String), (pay.map Prod.fst).Nodup →
        (lookupF pay k = none → lookupF (mergeSet d pay) k = lookupF d k)
      ∧ ∀ v, lookupF pay k = some v → lookupF (mergeSet d pay) k = some v) :=
  update_uses_set_merge_first_match "shop" opUpdateNoSelector (by decide)

/-- C5: every Delete operation dispatches, per write item, a session-scoped
deleteOne call on the named collection carrying only the item's selector —
the item's payload (`data.insert`) has no effect on the call — and the
backend semantics of that call remove at most one document, the first one
matching the selector. -/
theorem delete_first_match_ignores_payload (dbName : String) (op : Operation)
    (hop : op.operationType = OperationType.Delete) :
    dispatchOp dbName op = op.collectors.map (fun c =>
        WriteCall.deleteOne dbName c.collectionName (spread c.data.index))
  ∧ (∀ (name : String) (idx ins ins' : Option Doc),
        Transaction.delete dbName [{ collectionName := name, data := { index := idx, insert := ins } }]
          = Transaction.delete dbName [{ collectionName := name, data := { index := idx, insert := ins' } }])
  ∧ (∀ (s : Store) (coll : String) (sel : Doc),
        applyCall (WriteCall.deleteOne dbName coll sel) s
          = setColl s dbName coll (deleteFirst sel (getColl s dbName coll)))
  ∧ (∀ (sel : Doc) (l1 l2 : List Doc) (d : Doc),
        (∀ d' ∈ l1, matchesSel sel d' = false) → matchesSel sel d = true →
          deleteFirst sel (l1 ++ d :: l2) = l1 ++ l2)
  ∧ (∀ (sel : Doc) (docs : List Doc),
        (∀ d' ∈ docs, matchesSel sel d' = false) → deleteFirst sel docs = docs)
  ∧ (∀ (sel : Doc) (docs : List Doc),
        (deleteFirst sel docs).length ≤ docs.length
      ∧ docs.length ≤ (deleteFirst sel docs).length + 1) := by
  refine ⟨?_, fun name idx ins ins' => rfl, fun s coll sel => rfl,
    fun sel l1 l2 d h1 hd => deleteFirst_first_match sel l1 d l2 h1 hd,
    fun sel docs h => deleteFirst_no_match sel docs h,
    fun sel docs => ⟨deleteFirst_length_le sel docs, deleteFirst_length_ge sel docs⟩⟩
  simp only [dispatchOp, hop]
  rw [if_pos trivial]
  rfl

/-- Witness for C5 at a concrete Delete operation. -/
theorem delete_first_match_ignores_payload_witness :
    dispatchOp "shop" opDeleteOrphan = opDeleteOrphan.collectors.map (fun c =>
        WriteCall.deleteOne "shop" c.collectionName (spread c.data.index))
  ∧ (∀ (name : String) (idx ins ins' : Option Doc),
        Transaction.delete "shop" [{ collectionName := name, data := { index := idx, insert := ins } }]
          = Transaction.delete "shop" [{ collectionName := name, data := { index := idx, insert := ins' } }])
  ∧ (∀ (s : Store) (coll : String) (sel : Doc),
        applyCall (WriteCall.deleteOne "shop" coll sel) s
          = setColl s "shop" coll (deleteFirst sel (getColl s "shop" coll)))
  ∧ (∀ (sel : Doc) (l1 l2 : List Doc) (d : Doc),
        (∀ d' ∈ l1, matchesSel sel d' = false) → matchesSel sel d = true →
          deleteFirst sel (l1 ++ d :: l2) = l1 ++ l2)
  ∧ (∀ (sel : Doc) (docs : List Doc),
        (∀ d' ∈ docs, matchesSel sel d' = false) → deleteFirst sel docs = docs)
  ∧ (∀ (sel : Doc) (docs : List Doc),
        (deleteFirst sel docs).length ≤ docs.length
      ∧ docs.length ≤ (deleteFirst sel docs).length + 1) :=
  delete_first_match_ignores_payload "shop" opDeleteOrphan (by decide)

/-- An operation whose tag is none of the three enum members. -/
def opFrob : Operation :=
  { operationType := "REPLACE"
    collectors := [{ collectionName := "User"
                     data := { index := some [], insert := some [] } }] }

/-- C9: an operation whose operationType is none of CREATE, UPDATE, DELETE is
silently skipped by the tag switch: it contributes no backend write call, and
removing it from the list leaves the whole outcome of `createTransaction`
(trace, store, rejections, commit, resolution) unchanged. -/
theorem unknown_operation_type_skipped (fails : WriteCall → Bool) (dbName : String)
    (op : Operation) (h1 : op.operationType ≠ OperationType.Create)
    (h2 : op.operationType ≠ OperationType.Update)
    (h3 : op.operationType ≠ OperationType.Delete)
    (pre post : List Operation) (store : Store) :
    dispatchOp dbName op = []
  ∧ Transaction.createTransaction fails dbName (pre ++ op :: post) store
      = Transaction.createTransaction fails dbName (pre ++ post) store := by
  have hd : dispatchOp dbName op = [] := by
    simp only [dispatchOp]
    rw [if_neg h1, if_neg h2, if_neg h3]
  have htr : traceOfOps dbName (pre ++ op :: post) = traceOfOps dbName (pre ++ post) := by
    rw [traceOfOps_append, traceOfOps_append]
    simp [traceOfOps, hd]
  exact ⟨hd, by simp only [Transaction.createTransaction, htr]⟩

/-- Witness for C9 at a concrete unknown-tag operation. -/
theorem unknown_operation_type_skipped_witness :
    dispatchOp "shop" opFrob = []
  ∧ Transaction.createTransaction noFail "shop" ([opCreateUser] ++ opFrob :: [opDeleteOrphan]) []
      = Transaction.createTransaction noFail "shop" ([opCreateUser] ++ [opDeleteOrphan]) [] :=
  unknown_operation_type_skipped noFail "shop" opFrob
    (by decide) (by decide) (by decide) [opCreateUser] [opDeleteOrphan] []

/-- C10: a Create write item whose `insert` field is absent does not make
`createTransaction` fail: the spread of the missing field yields the empty
document, an insertOne of that empty document is issued for the named
collection, applying it appends the empty document to the collection, and the
call still resolves without aborting. -/
theorem missing_insert_payload_inserts_empty_document (dbName : String)
    (fails : WriteCall → Bool) (store : Store) (ops : List Operation)
    (op : Operation) (c : Collector) (hmem : op ∈ ops)
    (hop : op.operationType = OperationType.Create)
    (hc : c ∈ op.collectors) (hins : c.data.insert = none) :
    WriteCall.insertOne dbName c.collectionName []
      ∈ (Transaction.createTransaction fails dbName ops store).trace
  ∧ (Transaction.createTransaction fails dbName ops store).ok = true
  ∧ (Transaction.createTransaction fails dbName ops store).aborted = false
  ∧ ∀ s : Store, applyCall (WriteCall.insertOne dbName c.collectionName []) s
      = setColl s dbName c.collectionName (getColl s dbName c.collectionName ++ [([] : Doc)]) := by
  refine ⟨?_, rfl, rfl, fun s => rfl⟩
  show _ ∈ traceOfOps dbName ops
  apply mem_traceOfOps_of_mem_dispatch hmem
  simp only [dispatchOp, hop]
  rw [if_pos trivial]
  exact List.mem_map.mpr ⟨c, hc, by rw [hins]; rfl⟩

/-- Witness for C10 at a concrete Create item with no `insert` payload. -/
theorem missing_insert_payload_inserts_empty_document_witness :
    WriteCall.insertOne "shop" "Audit" []
      ∈ (Transaction.createTransaction noFail "shop" [opCreateEmpty] []).trace
  ∧ (Transaction.createTransaction noFail "shop" [opCreateEmpty] []).ok = true
  ∧ (Transaction.createTransaction noFail "shop" [opCreateEmpty] []).aborted = false
  ∧ ∀ s : Store, applyCall (WriteCall.insertOne "shop" "Audit" []) s
      = setColl s "shop" "Audit" (getColl s "shop" "Audit" ++ [([] : Doc)]) :=
  missing_insert_payload_inserts_empty_document "shop" noFail [] [opCreateEmpty]
    opCreateEmpty
    { collectionName := "Audit", data := { index := some [], insert := none } }
    (by decide) (by decide) (by decide) (by decide)
